import Mathlib

/-!
# letstalk: WebRTC to RTMP forwarder (`pkg/webrtc.go`)

Shallow embedding of `CreateWebRTCConnection`, of the background pipeline
goroutine it launches, of the `OnTrack` handler (RTCP pacer and RTP pump), of
the ICE connection-state handler and of `startFFmpeg`.

Library calls (pion/webrtc, `net`, `os/exec`, `encoding/json`) are not part of
the repository: their outcomes are supplied by environment records, and every
theorem quantifies over them.  Goroutines are modelled one at a time, each as
a function from the observations it makes (read results, write results, the
scope's status at each `ctx.Err()` check, the stores of other goroutines to
the shared variable `err`) to the ordered list of effects it performs.
-/

namespace LetsTalk

/-! ## Basic values -/

/-- Go `error` value, identified by its message. -/
abbrev GoError := String

/-- One octet of an RTP packet. -/
abbrev Byte := Fin 256

/-- RTCP packet kinds written by the program (`rtcp.PictureLossIndication`). -/
inductive RTCPPacket
  | PictureLossIndication (MediaSSRC : Nat)
  deriving DecidableEq

/-- Observable effects, in the order a goroutine performs them. -/
inductive Event
  | println (msg : String)
  | cancel
  | resolveUDPAddr (address : String)
  | dialUDP (port : Nat)
  | connClose (port : Nat)
  | stdinPipe
  | stderrPipe
  | start (name : String) (args : List String)
  | goDrain
  | onTrackSet
  | onICECandidateSet
  | onICEConnectionStateChangeSet
  | goPacer
  | writeRTCP (pkts : List RTCPPacket)
  | trackRead (n : Nat)
  | connWrite (port : Nat) (payload : List Byte)
  | ctxDone
  | pcClose
  | goPipeline
  deriving DecidableEq

/-- The session scope `ctx, cancel := context.WithCancel(context.Background())`:
`canceled` is `ctx.Err() == context.Canceled`. -/
structure Ctx where
  canceled : Bool
  deriving DecidableEq

/-- Fresh scope, as `context.WithCancel` returns it. -/
def Ctx.background : Ctx := ⟨false⟩

/-- The scope after `cancel()`; calling it again changes nothing. -/
def Ctx.cancel (_ : Ctx) : Ctx := ⟨true⟩

/-- `fmt.Println(err)` for an optional error, as in `if err != nil { fmt.Println(err) }`. -/
def logErr : Option GoError → List Event
  | none => []
  | some e => [Event.println e]

/-! ## The shared variable `err` -/

/-- What other goroutines did to the shared variable `err` between the last
access of the observing goroutine and one of its reads: nothing (`none`), or
stores, the last of which wrote the given value (`some v`, with `v = none`
for nil). The named result `err` of `CreateWebRTCConnection` is captured by
the pipeline goroutine and by the `OnTrack` handlers, which assign it without
synchronisation; each access is taken to be atomic. -/
abbrev Interference := Option (Option GoError)

/-- A read of the shared `err`: the value the variable holds, which is the
last foreign store if there was one, else what the reader last left there. -/
def loadErr (cell : Option GoError) (i : Interference) : Option GoError :=
  match i with
  | none => cell
  | some v => v

/-- `fmt.Println(err)` where `err` may be nil. -/
def printErr : Option GoError → Event
  | some e => Event.println e
  | none => Event.println "<nil>"

/-! ## Per-kind forwarder table (webrtc.go:16-19, 83-86) -/

/-- The struct `udpConn`: `conn` is `true` once `net.DialUDP` has stored a socket. -/
structure udpConn where
  conn : Bool
  port : Nat
  deriving DecidableEq

/-- The map literal `udpConns` of the pipeline goroutine, before dialling. -/
def udpConns : List (String × udpConn) :=
  [("audio", { conn := false, port := 4000 }),
   ("video", { conn := false, port := 4002 })]

/-! ## RTP pump loop (webrtc.go:134-149) -/

/-- What one call `track.Read(b)` delivers: the bytes copied into `b`
(`n` is their number) and `readErr`. -/
structure ReadResult where
  data : List Byte
  err : Option GoError
  deriving DecidableEq

/-- Observations of one iteration of the pump loop: the read result, the
error returned by `c.conn.Write` (which line 143 stores in the shared `err`),
the foreign stores to `err` that land before the test `err != nil` of line 143
and before the read of `fmt.Println(err)` at line 144, and the value of
`ctx.Err() == context.Canceled` at line 145 (consulted only when the test
succeeded). -/
structure PumpIter where
  read : ReadResult
  writeErr : Option GoError
  raceTest : Interference
  racePrint : Interference
  canceled : Bool
  deriving DecidableEq

/-- Effect of `n, _, readErr := track.Read(b)` on the buffer: the data is
copied over the front of `b`, at most `len(b)` bytes. -/
def trackRead (b : List Byte) (r : ReadResult) : List Byte × Nat :=
  ((r.data ++ b.drop r.data.length).take b.length, min r.data.length b.length)

/-- One iteration of the `for` loop at line 135: the buffer afterwards, the
effects, and whether `break` was executed. Line 143 assigns the result of the
write to the shared `err` and then tests that variable. -/
def pumpStep (port : Nat) (b : List Byte) (it : PumpIter) : List Byte × List Event × Bool :=
  let (b1, n) := trackRead b it.read
  let evRead := Event.trackRead n :: logErr it.read.err
  let evWrite := Event.connWrite port (b1.take n)
  let tested := loadErr it.writeErr it.raceTest
  match tested with
  | some _ =>
    let printed := loadErr tested it.racePrint
    if it.canceled then (b1, evRead ++ [evWrite, printErr printed], true)
    else (b1, evRead ++ [evWrite, printErr printed], false)
  | none => (b1, evRead ++ [evWrite], false)

/-- Outcome of running a loop over a finite schedule of observations. -/
structure LoopResult where
  events : List Event
  iterations : Nat
  exited : Bool
  deriving DecidableEq

/-- The pump loop over a finite schedule of iterations; `exited = false`
means the loop is still running when the schedule is used up. -/
def pump (port : Nat) : List Byte → List PumpIter → LoopResult
  | _, [] => { events := [], iterations := 0, exited := false }
  | b, it :: rest =>
    match pumpStep port b it with
    | (_, ev, true) => { events := ev, iterations := 1, exited := true }
    | (b1, ev, false) =>
      let r := pump port b1 rest
      { events := ev ++ r.events, iterations := r.iterations + 1, exited := r.exited }

/-- The buffer `b := make([]byte, 1500)`. -/
def newBuffer : List Byte := List.replicate 1500 0

/-- Datagrams handed to `conn.Write`, with the port of the socket, in order. -/
def connWrites : List Event → List (Nat × List Byte)
  | [] => []
  | Event.connWrite p d :: es => (p, d) :: connWrites es
  | _ :: es => connWrites es

/-- Number of `track.Read` calls among the events. -/
def trackReads : List Event → Nat
  | [] => 0
  | Event.trackRead _ :: es => trackReads es + 1
  | _ :: es => trackReads es

/-! ## RTCP pacer (webrtc.go:122-132) -/

/-- Observations of one tick of the pacer: the error of `WriteRTCP` and the
value of `ctx.Err() == context.Canceled` at line 128. -/
structure Tick where
  rtcpErr : Option GoError
  canceled : Bool
  deriving DecidableEq

/-- The conversion `uint32(track.SSRC())`. -/
def uint32 (x : Nat) : Nat := x % 2 ^ 32

/-- The pacer goroutine over a finite sequence of ticks of `ticker.C`. -/
def pacer (ssrc : Nat) : List Tick → LoopResult
  | [] => { events := [], iterations := 0, exited := false }
  | t :: ts =>
    let ev := Event.writeRTCP [RTCPPacket.PictureLossIndication (uint32 ssrc)] :: logErr t.rtcpErr
    if t.canceled then { events := ev, iterations := 1, exited := true }
    else
      let r := pacer ssrc ts
      { events := ev ++ r.events, iterations := r.iterations + 1, exited := r.exited }

/-- Batches handed to `peerConnection.WriteRTCP`, in order. -/
def rtcpWrites : List Event → List (List RTCPPacket)
  | [] => []
  | Event.writeRTCP ps :: es => ps :: rtcpWrites es
  | _ :: es => rtcpWrites es

/-! ## OnTrack handler (webrtc.go:113-150) -/

/-- The two observations the handler makes of a `*webrtc.TrackRemote`. -/
structure Track where
  kind : String
  ssrc : Nat
  deriving DecidableEq

/-- Effects of one run of the `OnTrack` handler: those of the handler's own
goroutine (the pump) and those of the pacer goroutine it starts. -/
structure TrackResult where
  slot : Option udpConn
  handler : LoopResult
  pacerStarted : Bool
  pacer : LoopResult
  deriving DecidableEq

/-- The handler passed to `peerConnection.OnTrack`, with `conns` the table
captured by the closure. -/
def onTrack (conns : List (String × udpConn)) (track : Track)
    (ticks : List Tick) (its : List PumpIter) : TrackResult :=
  match conns.lookup track.kind with
  | none =>
    { slot := none
      handler := { events := [], iterations := 0, exited := true }
      pacerStarted := false
      pacer := { events := [], iterations := 0, exited := false } }
  | some c =>
    let r := pump c.port newBuffer its
    { slot := some c
      handler := { r with events := Event.goPacer :: r.events }
      pacerStarted := true
      pacer := pacer track.ssrc ticks }

/-! ## ICE connection-state handler (webrtc.go:160-169) -/

/-- Modelled from the spec: the type `webrtc.ICEConnectionState` of pion,
whose declaration is not in the repository; the spec names Connected, Failed
and Disconnected and speaks of other states. -/
inductive ICEConnectionState
  | Unknown | New | Checking | Connected | Completed | Disconnected | Failed | Closed
  deriving DecidableEq

/-- Modelled from the spec: the method `connectionState.String()` of pion,
not in the repository; the program only prints its result. -/
def ICEConnectionState.String : ICEConnectionState → String
  | .Unknown => "Unknown"
  | .New => "new"
  | .Checking => "checking"
  | .Connected => "connected"
  | .Completed => "completed"
  | .Disconnected => "disconnected"
  | .Failed => "failed"
  | .Closed => "closed"

/-- The handler passed to `OnICEConnectionStateChange`: its effects and the
scope afterwards. -/
def onICEConnectionStateChange (connectionState : ICEConnectionState) (ctx : Ctx) :
    List Event × Ctx :=
  let log := Event.println ("Connection State has changed " ++ connectionState.String ++ " ")
  if connectionState = ICEConnectionState.Connected then
    ([log, Event.println "ICE connection was successful"], ctx)
  else if connectionState = ICEConnectionState.Failed ∨
      connectionState = ICEConnectionState.Disconnected then
    ([log, Event.cancel], ctx.cancel)
  else ([log], ctx)

/-- The handler run on a sequence of state changes, in order. -/
def iceRun : List ICEConnectionState → Ctx → List Event × Ctx
  | [], ctx => ([], ctx)
  | s :: ss, ctx =>
    let (ev, ctx1) := onICEConnectionStateChange s ctx
    let (evs, ctx2) := iceRun ss ctx1
    (ev ++ evs, ctx2)

/-! ## Transcoder supervisor `startFFmpeg` (webrtc.go:205-223) -/

/-- Value handed to `panic`: Go accepts any `interface{}`; `error e` is a
value whose dynamic type implements `error`, `other` is any value that does
not (a string, an integer, a struct). -/
inductive PanicValue
  | error (e : GoError)
  | other (repr : String)
  deriving DecidableEq

/-- How a function body leaves: by returning, or unwinding with a panic. -/
inductive Exit
  | normal
  | panicking (v : PanicValue)
  deriving DecidableEq

/-- `fmt.Sprintf("%s/%s", ingestionAddress, streamKey)`. -/
def streamURL (ingestionAddress streamKey : String) : String :=
  ingestionAddress ++ "/" ++ streamKey

/-- Arguments given to `exec.CommandContext` after the program name. -/
def ffmpegArgs (url : String) : List String :=
  ["-protocol_whitelist", "file,udp,rtp", "-i", "rtp-forwarder.sdp", "-c:v", "copy",
   "-c:a", "aac", "-f", "flv", "-strict", "-2", url]

/-- The goroutine draining the stderr of the transcoder: each item is a
scanned line with the value of `ctx.Err() == context.Canceled` after printing
it; when the list is used up the stream is at end of file, which is what the
exit of the child produces. -/
def drain : List (String × Bool) → LoopResult
  | [] => { events := [], iterations := 0, exited := true }
  | (line, canceled) :: rest =>
    if canceled then { events := [Event.println line], iterations := 1, exited := true }
    else
      let r := drain rest
      { events := Event.println line :: r.events, iterations := r.iterations + 1, exited := r.exited }

/-- Effects of `startFFmpeg`: those of the caller's goroutine, those of the
drain goroutine, and how the call leaves. -/
structure StartResult where
  events : List Event
  drain : List Event
  exit : Exit
  deriving DecidableEq

/-- The function `startFFmpeg(ctx, streamURL)`; `startErr` is what
`ffmpeg.Start()` returns (the environment's choice, including the error that
`Start` reports when the context is already cancelled) and `stderr` what the
scanner reads. The function receives the context only, not the cancel
function; the command is bound to the context by `exec.CommandContext`. The
comment at line 206 speaks of MKV consumed via stdin; the code passes
`-i rtp-forwarder.sdp` and never writes to the stdin pipe it opens. -/
def startFFmpeg (_ctx : Ctx) (url : String) (startErr : Option GoError)
    (stderr : List (String × Bool)) : StartResult :=
  let cmd := Event.start "ffmpeg" (ffmpegArgs url)
  let pipes := [Event.stdinPipe, Event.stderrPipe]
  match startErr with
  | some e =>
    { events := pipes ++ [cmd], drain := [], exit := Exit.panicking (PanicValue.error e) }
  | none =>
    { events := pipes ++ [cmd, Event.goDrain], drain := (drain stderr).events
      exit := Exit.normal }

/-! ## Background pipeline goroutine (webrtc.go:71-175) -/

/-- Outcomes of the library calls and the callbacks observed by the pipeline
goroutine. `videoFirst` is the order in which `range udpConns` visits the map. -/
structure PipelineEnv where
  resolveLocal : Option GoError
  videoFirst : Bool
  resolveRemote : Nat → Option GoError
  dialUDP : Nat → Option GoError
  ffmpegStart : Option GoError
  stderr : List (String × Bool)
  iceStates : List ICEConnectionState

/-- The order in which `range` visits the two entries of the map. -/
def rangeOrder (videoFirst : Bool) (m : List (String × udpConn)) : List (String × udpConn) :=
  if videoFirst then m.reverse else m

/-- Body of the `for _, c := range udpConns` loop for one entry: the entry
with its socket, the effects, the scope afterwards. -/
def dialOne (env : PipelineEnv) (c : udpConn) (ctx : Ctx) : udpConn × List Event × Ctx :=
  let address := "127.0.0.1:" ++ toString c.port
  let (ev1, ctx1) :=
    match env.resolveRemote c.port with
    | some e => ([Event.resolveUDPAddr address, Event.println e, Event.cancel], ctx.cancel)
    | none => ([Event.resolveUDPAddr address], ctx)
  match env.dialUDP c.port with
  | some e =>
    ({ c with conn := false }, ev1 ++ [Event.dialUDP c.port, Event.println e, Event.cancel],
      ctx1.cancel)
  | none => ({ c with conn := true }, ev1 ++ [Event.dialUDP c.port], ctx1)

/-- State after the dialling loop: the table, the effects, the scope, and
the deferred `conn.Close()` calls, last deferred first. -/
structure DialResult where
  conns : List (String × udpConn)
  events : List Event
  ctx : Ctx
  deferred : List Event
  deriving DecidableEq

/-- The whole `for _, c := range udpConns` loop. -/
def dialAll (env : PipelineEnv) : List (String × udpConn) → Ctx → DialResult
  | [], ctx => { conns := [], events := [], ctx := ctx, deferred := [] }
  | (k, c) :: rest, ctx =>
    let (c1, ev, ctx1) := dialOne env c ctx
    let r := dialAll env rest ctx1
    { conns := (k, c1) :: r.conns
      events := ev ++ r.events
      ctx := r.ctx
      deferred := r.deferred ++ [Event.connClose c.port] }

/-- Lines 76-80: `laddr, err = net.ResolveUDPAddr("udp", "127.0.0.1:")`, on
failure print and `cancel()`, and go on. -/
def resolveLocalAddr (env : PipelineEnv) (ctx : Ctx) : List Event × Ctx :=
  match env.resolveLocal with
  | some e => ([Event.resolveUDPAddr "127.0.0.1:", Event.println e, Event.cancel], ctx.cancel)
  | none => ([Event.resolveUDPAddr "127.0.0.1:"], ctx)

/-- Where the pipeline goroutine stands after the observations of the
environment: waiting at `<-ctx.Done()`, returned, or unwound by a panic that
nothing on this goroutine recovers. -/
inductive Status
  | blocked
  | finished
  | crashed (v : PanicValue)
  deriving DecidableEq

/-- Effects of the pipeline goroutine (`events`), of the drain goroutine and
of the ICE handler invocations, the table, the scope and the status. -/
structure PipelineResult where
  events : List Event
  drain : List Event
  handlers : List Event
  conns : List (String × udpConn)
  ctx : Ctx
  status : Status
  deriving DecidableEq

/-- The goroutine `go func(peerConnection *webrtc.PeerConnection) { ... }`. -/
def pipeline (env : PipelineEnv) (ingestionAddress streamKey : String) : PipelineResult :=
  let ctx0 := Ctx.background
  let l := resolveLocalAddr env ctx0
  let ev0 := l.1
  let d := dialAll env (rangeOrder env.videoFirst udpConns) l.2
  let f := startFFmpeg d.ctx (streamURL ingestionAddress streamKey) env.ffmpegStart env.stderr
  match f.exit with
  | Exit.panicking v =>
    { events := ev0 ++ d.events ++ f.events ++ d.deferred
      drain := f.drain
      handlers := []
      conns := d.conns
      ctx := d.ctx
      status := Status.crashed v }
  | Exit.normal =>
    let reg := [Event.onTrackSet, Event.onICECandidateSet, Event.onICEConnectionStateChangeSet]
    let i := iceRun env.iceStates d.ctx
    let evI := i.1
    let ctx2 := i.2
    if ctx2.canceled then
      { events := ev0 ++ d.events ++ f.events ++ reg ++ [Event.ctxDone, Event.pcClose] ++ d.deferred
        drain := f.drain
        handlers := evI
        conns := d.conns
        ctx := ctx2
        status := Status.finished }
    else
      { events := ev0 ++ d.events ++ f.events ++ reg
        drain := f.drain
        handlers := evI
        conns := d.conns
        ctx := ctx2
        status := Status.blocked }

/-! ## `CreateWebRTCConnection`, calling goroutine (webrtc.go:22-69, 177-203) -/

/-- The struct `webrtc.SessionDescription` (fields `Type` and `SDP`). -/
structure SessionDescription where
  sdpType : String
  sdp : String
  deriving DecidableEq

/-- Zero value of `webrtc.SessionDescription`. -/
def SessionDescription.zero : SessionDescription := ⟨"", ""⟩

/-- Outcome of a library call: it returns a value and an error (nil = `none`),
or it panics. -/
inductive Call (α : Type)
  | ret (v : α) (err : Option GoError)
  | fault (v : PanicValue)

/-- Outcomes of the library calls made by the calling goroutine, in source
order, and its observations of the shared `err` once the pipeline goroutine
exists: `race l` is the interference that lands before the read of `err` at
source line `l` (180, 181, 185, 186, 191, 192, 198, 199, and 203 for the read
of the result when the function returns). `nilPanic` is what the runtime
raises for `panic(err)` when `err` is read as nil (the nil value before
Go 1.21, a `runtime.PanicNilError` since). -/
structure SetupEnv where
  registerVideo : Call Unit
  registerAudio : Call Unit
  newPeerConnection : Call Unit
  addTransceiverAudio : Call Unit
  addTransceiverVideo : Call Unit
  unmarshal : String → Call SessionDescription
  setRemoteDescription : SessionDescription → Call Unit
  createAnswer : Call SessionDescription
  setLocalDescription : SessionDescription → Call Unit
  race : Nat → Interference
  nilPanic : PanicValue

/-- The value raised by `panic(err)` for the value read from `err`. -/
def panicValue (nilPanic : PanicValue) : Option GoError → PanicValue
  | some e => PanicValue.error e
  | none => nilPanic

/-- The pattern `if err != nil { panic(err) }` after the calling goroutine
has stored `stored` in the shared `err`: the test reads `err` at `testLine`;
when it holds, `panic(err)` reads it again at `panicLine`. The result is the
content of `err` afterwards and, when the panic is raised, how the body
leaves. -/
def checkErr (env : SetupEnv) (stored : Option GoError) (testLine panicLine : Nat) :
    Option GoError × Option Exit :=
  let tested := loadErr stored (env.race testLine)
  match tested with
  | none => (none, none)
  | some _ =>
    let raised := loadErr tested (env.race panicLine)
    (raised, some (Exit.panicking (panicValue env.nilPanic raised)))

/-- The named results `answer` and `err`, and the effects so far. -/
structure Frame where
  answer : SessionDescription
  err : Option GoError
  events : List Event
  deriving DecidableEq

/-- The function body between the `defer` statement and the final `return`.
Up to line 69 no other goroutine exists; from line 71 on every read of `err`
goes through `checkErr`. The field `err` of the frame is the content of the
shared variable as the calling goroutine last stored or read it. -/
def setupBody (env : SetupEnv) (offerStr : String) : Frame × Exit :=
  let f0 : Frame := { answer := SessionDescription.zero, err := none, events := [] }
  match env.registerVideo with
  | Call.fault v => (f0, Exit.panicking v)
  | Call.ret _ (some e) => (f0, Exit.panicking (PanicValue.error e))
  | Call.ret _ none =>
  match env.registerAudio with
  | Call.fault v => (f0, Exit.panicking v)
  | Call.ret _ (some e) => (f0, Exit.panicking (PanicValue.error e))
  | Call.ret _ none =>
  match env.newPeerConnection with
  | Call.fault v => (f0, Exit.panicking v)
  | Call.ret _ (some e) => ({ f0 with err := some e }, Exit.panicking (PanicValue.error e))
  | Call.ret _ none =>
  match env.addTransceiverAudio with
  | Call.fault v => (f0, Exit.panicking v)
  | Call.ret _ (some e) => ({ f0 with err := some e }, Exit.panicking (PanicValue.error e))
  | Call.ret _ none =>
  match env.addTransceiverVideo with
  | Call.fault v => (f0, Exit.panicking v)
  | Call.ret _ (some e) => ({ f0 with err := some e }, Exit.panicking (PanicValue.error e))
  | Call.ret _ none =>
  let f1 : Frame := { f0 with events := [Event.goPipeline] }
  match env.unmarshal offerStr with
  | Call.fault v => (f1, Exit.panicking v)
  | Call.ret offer e1 =>
  match checkErr env e1 180 181 with
  | (cell, some x) => ({ f1 with err := cell }, x)
  | (_, none) =>
  match env.setRemoteDescription offer with
  | Call.fault v => (f1, Exit.panicking v)
  | Call.ret _ e2 =>
  match checkErr env e2 185 186 with
  | (cell, some x) => ({ f1 with err := cell }, x)
  | (_, none) =>
  match env.createAnswer with
  | Call.fault v => (f1, Exit.panicking v)
  | Call.ret a e3 =>
  let f2 : Frame := { f1 with answer := a }
  match checkErr env e3 191 192 with
  | (cell, some x) => ({ f2 with err := cell }, x)
  | (_, none) =>
  match env.setLocalDescription a with
  | Call.fault v => (f2, Exit.panicking v)
  | Call.ret _ e4 =>
  match checkErr env e4 198 199 with
  | (cell, some x) => ({ f2 with err := cell }, x)
  | (_, none) => (f2, Exit.normal)

/-- The builtin `recover()` called by a deferred function: the panic value
(nil = `none` when not panicking), and the panic is stopped. -/
def recover : Exit → Option PanicValue × Exit
  | Exit.normal => (none, Exit.normal)
  | Exit.panicking v => (some v, Exit.normal)

/-- The deferred function: `if e, ok := recover().(error); ok { err = e }`. -/
def deferredRecover (f : Frame) (x : Exit) : Frame × Exit :=
  let (v, x1) := recover x
  match v with
  | some (PanicValue.error e) => ({ f with err := some e }, x1)
  | _ => (f, x1)

/-- The function `CreateWebRTCConnection` as the caller sees it: named
results, effects of the calling goroutine, and how the call leaves. When the
pipeline goroutine has been launched, the value returned as `err` is the
shared variable as read after the deferred function, so a store of another
goroutine (lines 77, 90, 96, 143) landing before that read replaces what the
calling goroutine left there. -/
def CreateWebRTCConnection (env : SetupEnv) (_ingestionAddress _streamKey offerStr : String) :
    Frame × Exit :=
  let (f, x) := setupBody env offerStr
  let r := deferredRecover f x
  if Event.goPipeline ∈ r.1.events then
    ({ r.1 with err := loadErr r.1.err (env.race 203) }, r.2)
  else r

/-- One session: the call, and the pipeline goroutine when the call has
launched it (`penv` holds what that goroutine observes). -/
structure Session where
  frame : Frame
  exit : Exit
  background : Option PipelineResult
  deriving DecidableEq

/-- The call together with the goroutine launched at line 71, which closes
over `ingestionAddress` and `streamKey`. -/
def session (env : SetupEnv) (penv : PipelineEnv) (ingestionAddress streamKey offerStr : String) :
    Session :=
  let (f, x) := CreateWebRTCConnection env ingestionAddress streamKey offerStr
  { frame := f
    exit := x
    background :=
      if Event.goPipeline ∈ f.events then some (pipeline penv ingestionAddress streamKey)
      else none }

/-- Every effect of a pipeline run, over its three goroutine groups. -/
def PipelineResult.allEvents (r : PipelineResult) : List Event :=
  r.events ++ r.drain ++ r.handlers

/-- Every effect of the background pipeline of a session. -/
def Session.backgroundEvents (s : Session) : List Event :=
  match s.background with
  | none => []
  | some r => r.allEvents

/-! ## Projections of effect lists and predicates used in the statements -/

/-- The exit test of one pump iteration: the test `err != nil` of line 143
holds (the write failed, when no foreign store to `err` intervenes) and the
scope is observed cancelled. -/
def pumpBreaks (it : PumpIter) : Bool :=
  (loadErr it.writeErr it.raceTest).isSome && it.canceled

/-- The states on which the handler calls `cancel()`. -/
def cancelsScope (s : ICEConnectionState) : Bool :=
  decide (s = ICEConnectionState.Failed ∨ s = ICEConnectionState.Disconnected)

/-- Commands handed to `exec.Cmd.Start`, in order. -/
def starts : List Event → List (String × List String)
  | [] => []
  | Event.start name args :: es => (name, args) :: starts es
  | _ :: es => starts es

/-- Ports handed to `net.DialUDP`, in order. -/
def dials : List Event → List Nat
  | [] => []
  | Event.dialUDP port :: es => port :: dials es
  | _ :: es => dials es

/-- Some resolve or dial step of lines 76-99 failed (each such failure calls
`cancel()`). -/
def dialFailed (env : PipelineEnv) : Bool :=
  env.resolveLocal.isSome ||
    (env.resolveRemote 4000).isSome || (env.dialUDP 4000).isSome ||
    (env.resolveRemote 4002).isSome || (env.dialUDP 4002).isSome

/-- The call returned with a nil error. -/
def Call.ok {α : Type} : Call α → Bool
  | Call.ret _ none => true
  | _ => false

/-- Every library call before the offer is parsed returned a nil error, so
that control reaches line 177. -/
def SetupEnv.reachesOffer (env : SetupEnv) : Bool :=
  env.registerVideo.ok && env.registerAudio.ok && env.newPeerConnection.ok &&
    env.addTransceiverAudio.ok && env.addTransceiverVideo.ok

/-- A negotiation step of lines 177-200 (offer parse, `SetRemoteDescription`,
`CreateAnswer`, `SetLocalDescription`) returns the error `e`, the steps before
it having returned nil errors. -/
def NegotiationFails (env : SetupEnv) (offerStr : String) (e : GoError) : Prop :=
  (∃ v, env.unmarshal offerStr = Call.ret v (some e)) ∨
  (∃ offer, env.unmarshal offerStr = Call.ret offer none ∧
    (env.setRemoteDescription offer = Call.ret () (some e) ∨
      (env.setRemoteDescription offer = Call.ret () none ∧
        ((∃ a, env.createAnswer = Call.ret a (some e)) ∨
          (∃ a, env.createAnswer = Call.ret a none ∧
            env.setLocalDescription a = Call.ret () (some e))))))

/-! ## Concrete inputs used by the examples -/

/-- An environment in which every library call of the calling goroutine
succeeds, and `json.Unmarshal` rejects the string `not json`. -/
def okEnv : SetupEnv where
  registerVideo := Call.ret () none
  registerAudio := Call.ret () none
  newPeerConnection := Call.ret () none
  addTransceiverAudio := Call.ret () none
  addTransceiverVideo := Call.ret () none
  unmarshal := fun s =>
    if s = "not json" then
      Call.ret SessionDescription.zero (some "invalid character in literal null")
    else Call.ret ⟨"offer", s⟩ none
  setRemoteDescription := fun _ => Call.ret () none
  createAnswer := Call.ret ⟨"answer", "v=0"⟩ none
  setLocalDescription := fun _ => Call.ret () none
  race := fun _ => none
  nilPanic := PanicValue.other "nil"

/-- As `okEnv`, but a successful `net.ResolveUDPAddr` of the pipeline
goroutine (line 77) stores nil in the shared `err` after the deferred function
of the calling goroutine has run and before the result is read. -/
def lateStoreEnv : SetupEnv :=
  { okEnv with race := fun l => if l = 203 then some none else none }

/-- As `okEnv`, but `NewPeerConnection` panics with a string value. -/
def stringPanicEnv : SetupEnv :=
  { okEnv with newPeerConnection := Call.fault (PanicValue.other "unexpected state") }

/-- A pipeline environment in which every call succeeds, the transcoder
prints nothing and no ICE state change is delivered. -/
def quietEnv : PipelineEnv where
  resolveLocal := none
  videoFirst := false
  resolveRemote := fun _ => none
  dialUDP := fun _ => none
  ffmpegStart := none
  stderr := []
  iceStates := []

/-- As `quietEnv`, but the transcoder prints one line and then exits (end of
its stderr stream). -/
def exitEnv : PipelineEnv :=
  { quietEnv with stderr := [("frame=1", false)] }

/-- As `quietEnv`, but `ffmpeg.Start()` returns an error. -/
def spawnFailEnv : PipelineEnv :=
  { quietEnv with ffmpegStart := some "executable file not found" }

/-- As `quietEnv`, but ICE goes through Checking, Connected and Failed. -/
def iceFailEnv : PipelineEnv :=
  { quietEnv with iceStates :=
      [ICEConnectionState.Checking, ICEConnectionState.Connected, ICEConnectionState.Failed] }

/-- Three RTP packets of 200, 800 and 1400 bytes. -/
def p1 : List Byte := List.replicate 200 1

/-- Second packet. -/
def p2 : List Byte := List.replicate 800 2

/-- Third packet. -/
def p3 : List Byte := List.replicate 1400 3

/-- A schedule in which the three packets are read and written without error. -/
def threePackets : List PumpIter :=
  [ { read := { data := p1, err := none }, writeErr := none, raceTest := none,
      racePrint := none, canceled := false },
    { read := { data := p2, err := none }, writeErr := none, raceTest := none,
      racePrint := none, canceled := false },
    { read := { data := p3, err := none }, writeErr := none, raceTest := none,
      racePrint := none, canceled := false } ]

/-- An iteration in which the track read fails (the track has ended), the
UDP write succeeds, no other goroutine touches `err`, and the scope is
cancelled. -/
def endedTrackIter : PumpIter :=
  { read := { data := [], err := some "EOF" }, writeErr := none, raceTest := none,
    racePrint := none, canceled := true }

/-- Four ticks of the pacer: a failed RTCP write, a good one, then the scope
is observed cancelled. -/
def sampleTicks : List Tick :=
  [ { rtcpErr := some "write: connection refused", canceled := false },
    { rtcpErr := none, canceled := false },
    { rtcpErr := none, canceled := true },
    { rtcpErr := none, canceled := true } ]

/-! ## Lemmas on the pump loop -/

theorem trackRead_fst_length (b : List Byte) (r : ReadResult) (h : r.data.length ≤ b.length) :
    (trackRead b r).1.length = b.length := by
  simp [trackRead]
  omega

theorem trackRead_payload (b : List Byte) (r : ReadResult) (h : r.data.length ≤ b.length) :
    (trackRead b r).1.take (trackRead b r).2 = r.data := by
  unfold trackRead
  simp only [Nat.min_eq_left h, List.take_take]
  exact List.take_left' rfl

theorem pumpStep_buffer (port : Nat) (b : List Byte) (it : PumpIter) :
    (pumpStep port b it).1 = (trackRead b it.read).1 := by
  unfold pumpStep
  cases loadErr it.writeErr it.raceTest <;> cases it.canceled <;> rfl

theorem pumpStep_exit (port : Nat) (b : List Byte) (it : PumpIter) :
    (pumpStep port b it).2.2 = pumpBreaks it := by
  unfold pumpStep pumpBreaks
  cases loadErr it.writeErr it.raceTest <;> cases it.canceled <;> rfl

theorem connWrites_printErr (e : Option GoError) (es : List Event) :
    connWrites (printErr e :: es) = connWrites es := by
  cases e <;> rfl

theorem trackReads_printErr (e : Option GoError) (es : List Event) :
    trackReads (printErr e :: es) = trackReads es := by
  cases e <;> rfl

theorem pumpStep_connWrites (port : Nat) (b : List Byte) (it : PumpIter) :
    connWrites (pumpStep port b it).2.1
      = [(port, (trackRead b it.read).1.take (trackRead b it.read).2)] := by
  unfold pumpStep
  cases it.read.err <;> cases loadErr it.writeErr it.raceTest <;> cases it.canceled <;>
    simp [connWrites, logErr, trackRead, connWrites_printErr]

theorem pumpStep_trackReads (port : Nat) (b : List Byte) (it : PumpIter) :
    trackReads (pumpStep port b it).2.1 = 1 := by
  unfold pumpStep
  cases it.read.err <;> cases loadErr it.writeErr it.raceTest <;> cases it.canceled <;>
    simp [trackReads, logErr, trackReads_printErr]

theorem connWrites_append (xs ys : List Event) :
    connWrites (xs ++ ys) = connWrites xs ++ connWrites ys := by
  induction xs with
  | nil => rfl
  | cons x xs ih => cases x <;> simp [connWrites, ih]

theorem trackReads_append (xs ys : List Event) :
    trackReads (xs ++ ys) = trackReads xs + trackReads ys := by
  induction xs with
  | nil => simp [trackReads]
  | cons x xs ih =>
    cases x <;> simp [trackReads, ih]
    omega

theorem pump_cons (port : Nat) (b : List Byte) (it : PumpIter) (rest : List PumpIter) :
    pump port b (it :: rest) =
      if pumpBreaks it then
        { events := (pumpStep port b it).2.1, iterations := 1, exited := true }
      else
        { events := (pumpStep port b it).2.1 ++ (pump port (trackRead b it.read).1 rest).events
          iterations := (pump port (trackRead b it.read).1 rest).iterations + 1
          exited := (pump port (trackRead b it.read).1 rest).exited } := by
  have h1 := pumpStep_exit port b it
  have h2 := pumpStep_buffer port b it
  rw [pump]
  rcases h : pumpStep port b it with ⟨b1, ev, x⟩
  rw [h] at h1 h2
  simp at h1 h2
  subst h2
  cases x <;> simp [← h1]


theorem pump_exited (port : Nat) (its : List PumpIter) :
    ∀ b : List Byte, (pump port b its).exited = its.any pumpBreaks := by
  induction its with
  | nil => intro b; simp [pump]
  | cons it rest ih =>
    intro b
    rw [pump_cons]
    by_cases hx : pumpBreaks it = true
    · simp [hx]
    · simp only [hx]
      simp only [Bool.not_eq_true] at hx
      simp [ih, hx]

theorem pump_iterations (port : Nat) (its : List PumpIter) :
    ∀ b : List Byte,
      (pump port b its).iterations = min (its.findIdx pumpBreaks + 1) its.length := by
  induction its with
  | nil => intro b; simp [pump]
  | cons it rest ih =>
    intro b
    rw [pump_cons]
    by_cases hx : pumpBreaks it = true
    · simp [hx, List.findIdx_cons]
    · simp only [hx]
      simp only [Bool.not_eq_true] at hx
      simp [ih, hx, List.findIdx_cons]
      omega

theorem pump_trackReads (port : Nat) (its : List PumpIter) :
    ∀ b : List Byte, trackReads (pump port b its).events = (pump port b its).iterations := by
  induction its with
  | nil => intro b; simp [pump, trackReads]
  | cons it rest ih =>
    intro b
    rw [pump_cons]
    split
    · simp [pumpStep_trackReads]
    · simp [trackReads_append, pumpStep_trackReads, ih]
      omega

theorem pump_forwards (port : Nat) (its : List PumpIter) :
    ∀ b : List Byte, b.length = 1500 →
      (∀ it ∈ its, it.read.data.length ≤ 1500) →
      connWrites (pump port b its).events
        = (its.take (pump port b its).iterations).map (fun it => (port, it.read.data)) := by
  induction its with
  | nil => intro b _ _; simp [pump, connWrites]
  | cons it rest ih =>
    intro b hb h
    have hit := h it (List.mem_cons_self _ _)
    have hlen : it.read.data.length ≤ b.length := by omega
    rw [pump_cons]
    split
    · simp [pumpStep_connWrites, trackRead_payload b it.read hlen]
    · simp [connWrites_append, pumpStep_connWrites, trackRead_payload b it.read hlen]
      rw [← List.map_take]
      exact ih _ (by rw [trackRead_fst_length b it.read hlen]; exact hb)
        (fun x hx => h x (List.mem_cons_of_mem _ hx))

/-! ## Lemmas on the pacer -/

theorem rtcpWrites_logErr (e : Option GoError) (es : List Event) :
    rtcpWrites (logErr e ++ es) = rtcpWrites es := by
  cases e <;> simp [logErr, rtcpWrites]

theorem pacer_cons (ssrc : Nat) (t : Tick) (ts : List Tick) :
    pacer ssrc (t :: ts) =
      if t.canceled then
        { events := Event.writeRTCP [RTCPPacket.PictureLossIndication (uint32 ssrc)]
            :: logErr t.rtcpErr
          iterations := 1, exited := true }
      else
        { events := (Event.writeRTCP [RTCPPacket.PictureLossIndication (uint32 ssrc)]
            :: logErr t.rtcpErr) ++ (pacer ssrc ts).events
          iterations := (pacer ssrc ts).iterations + 1
          exited := (pacer ssrc ts).exited } := by
  rw [pacer]

theorem pacer_rtcpWrites (ssrc : Nat) (ticks : List Tick) :
    rtcpWrites (pacer ssrc ticks).events
      = List.replicate (pacer ssrc ticks).iterations
          [RTCPPacket.PictureLossIndication (uint32 ssrc)] := by
  induction ticks with
  | nil => simp [pacer, rtcpWrites]
  | cons t ts ih =>
    rw [pacer_cons]
    split
    · have := rtcpWrites_logErr t.rtcpErr []
      simp at this
      simp [rtcpWrites, this]
    · simp [rtcpWrites, rtcpWrites_logErr, ih, List.replicate_succ]

theorem pacer_iterations (ssrc : Nat) (ticks : List Tick) :
    (pacer ssrc ticks).iterations = min (ticks.findIdx Tick.canceled + 1) ticks.length := by
  induction ticks with
  | nil => simp [pacer]
  | cons t ts ih =>
    rw [pacer_cons]
    by_cases hx : t.canceled = true
    · simp [hx, List.findIdx_cons]
    · simp only [hx]
      simp only [Bool.not_eq_true] at hx
      simp [ih, hx, List.findIdx_cons]
      omega

theorem pacer_exited (ssrc : Nat) (ticks : List Tick) :
    (pacer ssrc ticks).exited = ticks.any Tick.canceled := by
  induction ticks with
  | nil => simp [pacer]
  | cons t ts ih =>
    rw [pacer_cons]
    by_cases hx : t.canceled = true
    · simp [hx]
    · simp only [hx]
      simp only [Bool.not_eq_true] at hx
      simp [ih, hx]

theorem pacer_canceled_once (ssrc : Nat) (ticks : List Tick) :
    ((ticks.take (pacer ssrc ticks).iterations).filter Tick.canceled).length
      = if (pacer ssrc ticks).exited then 1 else 0 := by
  induction ticks with
  | nil => simp [pacer]
  | cons t ts ih =>
    rw [pacer_cons]
    by_cases hx : t.canceled = true
    · simp [hx]
    · simp only [hx]
      simp only [Bool.not_eq_true] at hx
      simp [hx]
      simpa using ih

/-! ## Lemmas on the ICE handler -/


theorem onICE_ctx (s : ICEConnectionState) (ctx : Ctx) :
    (onICEConnectionStateChange s ctx).2 = ⟨ctx.canceled || cancelsScope s⟩ := by
  cases s <;> cases ctx <;> simp [onICEConnectionStateChange, cancelsScope, Ctx.cancel]

theorem onICE_cancel_mem (s : ICEConnectionState) (ctx : Ctx) :
    Event.cancel ∈ (onICEConnectionStateChange s ctx).1 ↔ cancelsScope s = true := by
  cases s <;> simp [onICEConnectionStateChange, cancelsScope]

theorem iceRun_ctx (ss : List ICEConnectionState) :
    ∀ ctx : Ctx, (iceRun ss ctx).2 = ⟨ctx.canceled || ss.any cancelsScope⟩ := by
  induction ss with
  | nil => intro ctx; simp [iceRun]
  | cons s ss ih =>
    intro ctx
    simp [iceRun, ih, onICE_ctx, Bool.or_assoc]

theorem iceRun_cancel_mem (ss : List ICEConnectionState) :
    ∀ ctx : Ctx, Event.cancel ∈ (iceRun ss ctx).1 ↔ ss.any cancelsScope = true := by
  induction ss with
  | nil => intro ctx; simp [iceRun]
  | cons s ss ih =>
    intro ctx
    simp [iceRun, ih, onICE_cancel_mem]


/-! ## Lemmas on the pipeline goroutine -/

theorem starts_append (xs ys : List Event) : starts (xs ++ ys) = starts xs ++ starts ys := by
  induction xs with
  | nil => rfl
  | cons x xs ih => cases x <;> simp [starts, ih]

theorem dials_append (xs ys : List Event) : dials (xs ++ ys) = dials xs ++ dials ys := by
  induction xs with
  | nil => rfl
  | cons x xs ih => cases x <;> simp [dials, ih]

theorem dialOne_port (env : PipelineEnv) (c : udpConn) (ctx : Ctx) :
    (dialOne env c ctx).1.port = c.port := by
  unfold dialOne
  cases env.resolveRemote c.port <;> cases env.dialUDP c.port <;> rfl

theorem dialOne_ctx (env : PipelineEnv) (c : udpConn) (ctx : Ctx) :
    (dialOne env c ctx).2.2 =
      ⟨ctx.canceled || (env.resolveRemote c.port).isSome || (env.dialUDP c.port).isSome⟩ := by
  unfold dialOne
  cases ctx
  cases env.resolveRemote c.port <;> cases env.dialUDP c.port <;> simp [Ctx.cancel]

theorem dialOne_starts (env : PipelineEnv) (c : udpConn) (ctx : Ctx) :
    starts (dialOne env c ctx).2.1 = [] := by
  unfold dialOne
  cases env.resolveRemote c.port <;> cases env.dialUDP c.port <;> simp [starts]

theorem dialOne_dials (env : PipelineEnv) (c : udpConn) (ctx : Ctx) :
    dials (dialOne env c ctx).2.1 = [c.port] := by
  unfold dialOne
  cases env.resolveRemote c.port <;> cases env.dialUDP c.port <;> simp [dials]

theorem dialOne_pcClose (env : PipelineEnv) (c : udpConn) (ctx : Ctx) :
    Event.pcClose ∉ (dialOne env c ctx).2.1 := by
  unfold dialOne
  cases env.resolveRemote c.port <;> cases env.dialUDP c.port <;> simp

theorem dialOne_cancel (env : PipelineEnv) (c : udpConn) (ctx : Ctx) :
    Event.cancel ∈ (dialOne env c ctx).2.1 ↔
      ((env.resolveRemote c.port).isSome || (env.dialUDP c.port).isSome) = true := by
  unfold dialOne
  cases env.resolveRemote c.port <;> cases env.dialUDP c.port <;> simp

theorem dialAll_cons (env : PipelineEnv) (k : String) (c : udpConn)
    (rest : List (String × udpConn)) (ctx : Ctx) :
    dialAll env ((k, c) :: rest) ctx =
      { conns := (k, (dialOne env c ctx).1) :: (dialAll env rest (dialOne env c ctx).2.2).conns
        events := (dialOne env c ctx).2.1 ++ (dialAll env rest (dialOne env c ctx).2.2).events
        ctx := (dialAll env rest (dialOne env c ctx).2.2).ctx
        deferred := (dialAll env rest (dialOne env c ctx).2.2).deferred
          ++ [Event.connClose c.port] } := by
  rw [dialAll]

theorem dialAll_lookup (env : PipelineEnv) (key : String) (m : List (String × udpConn)) :
    ∀ ctx : Ctx, ((dialAll env m ctx).conns.lookup key).map udpConn.port
      = (m.lookup key).map udpConn.port := by
  induction m with
  | nil => intro ctx; simp [dialAll]
  | cons p rest ih =>
    intro ctx
    obtain ⟨k, c⟩ := p
    rw [dialAll_cons]
    simp only [List.lookup_cons]
    cases key == k
    · simpa using ih _
    · simp [dialOne_port]


theorem resolveLocalAddr_ctx (env : PipelineEnv) (ctx : Ctx) :
    (resolveLocalAddr env ctx).2 = ⟨ctx.canceled || env.resolveLocal.isSome⟩ := by
  unfold resolveLocalAddr
  cases ctx
  cases env.resolveLocal <;> simp [Ctx.cancel]

theorem resolveLocalAddr_starts (env : PipelineEnv) (ctx : Ctx) :
    starts (resolveLocalAddr env ctx).1 = [] := by
  unfold resolveLocalAddr
  cases env.resolveLocal <;> simp [starts]

theorem resolveLocalAddr_dials (env : PipelineEnv) (ctx : Ctx) :
    dials (resolveLocalAddr env ctx).1 = [] := by
  unfold resolveLocalAddr
  cases env.resolveLocal <;> simp [dials]

theorem resolveLocalAddr_pcClose (env : PipelineEnv) (ctx : Ctx) :
    Event.pcClose ∉ (resolveLocalAddr env ctx).1 := by
  unfold resolveLocalAddr
  cases env.resolveLocal <;> simp

theorem resolveLocalAddr_cancel (env : PipelineEnv) (ctx : Ctx) :
    Event.cancel ∈ (resolveLocalAddr env ctx).1 ↔ env.resolveLocal.isSome = true := by
  unfold resolveLocalAddr
  cases env.resolveLocal <;> simp

theorem dialPhase_ctx (env : PipelineEnv) (vf : Bool) (ctx : Ctx) :
    (dialAll env (rangeOrder vf udpConns) ctx).ctx.canceled =
      (ctx.canceled || (env.resolveRemote 4000).isSome || (env.dialUDP 4000).isSome ||
        (env.resolveRemote 4002).isSome || (env.dialUDP 4002).isSome) := by
  cases vf <;> simp [rangeOrder, udpConns, dialAll_cons, dialAll, dialOne_ctx]
  cases ctx.canceled <;> cases (env.resolveRemote 4000).isSome <;>
    cases (env.dialUDP 4000).isSome <;> cases (env.resolveRemote 4002).isSome <;>
    cases (env.dialUDP 4002).isSome <;> rfl

theorem dialPhase_starts (env : PipelineEnv) (vf : Bool) (ctx : Ctx) :
    starts (dialAll env (rangeOrder vf udpConns) ctx).events = [] ∧
      starts (dialAll env (rangeOrder vf udpConns) ctx).deferred = [] := by
  cases vf <;>
    simp [rangeOrder, udpConns, dialAll_cons, dialAll, starts_append, dialOne_starts, starts]

theorem dialPhase_dials (env : PipelineEnv) (vf : Bool) (ctx : Ctx) :
    dials (dialAll env (rangeOrder vf udpConns) ctx).events
        = (if vf then [4002, 4000] else [4000, 4002]) ∧
      dials (dialAll env (rangeOrder vf udpConns) ctx).deferred = [] := by
  cases vf <;>
    simp [rangeOrder, udpConns, dialAll_cons, dialAll, dials_append, dialOne_dials, dials]

theorem dialPhase_pcClose (env : PipelineEnv) (vf : Bool) (ctx : Ctx) :
    Event.pcClose ∉ (dialAll env (rangeOrder vf udpConns) ctx).events ∧
      Event.pcClose ∉ (dialAll env (rangeOrder vf udpConns) ctx).deferred := by
  cases vf <;>
    simp [rangeOrder, udpConns, dialAll_cons, dialAll, dialOne_pcClose]

theorem dialPhase_cancel (env : PipelineEnv) (vf : Bool) (ctx : Ctx) :
    (Event.cancel ∈ (dialAll env (rangeOrder vf udpConns) ctx).events ↔
        ((env.resolveRemote 4000).isSome || (env.dialUDP 4000).isSome ||
          (env.resolveRemote 4002).isSome || (env.dialUDP 4002).isSome) = true) ∧
      Event.cancel ∉ (dialAll env (rangeOrder vf udpConns) ctx).deferred := by
  cases vf <;>
    simp [rangeOrder, udpConns, dialAll_cons, dialAll, dialOne_cancel] <;> tauto

theorem drain_println (lines : List (String × Bool)) :
    ∀ ev ∈ (drain lines).events, ∃ msg, ev = Event.println msg := by
  induction lines with
  | nil => simp [drain]
  | cons p rest ih =>
    obtain ⟨line, c⟩ := p
    cases c <;> simp [drain]
    intro a ha
    exact ih a ha

theorem onICE_events (s : ICEConnectionState) (ctx : Ctx) :
    ∀ ev ∈ (onICEConnectionStateChange s ctx).1, ev = Event.cancel ∨ ∃ msg, ev = Event.println msg := by
  cases s <;> simp [onICEConnectionStateChange]

theorem iceRun_events (ss : List ICEConnectionState) :
    ∀ ctx : Ctx, ∀ ev ∈ (iceRun ss ctx).1, ev = Event.cancel ∨ ∃ msg, ev = Event.println msg := by
  induction ss with
  | nil => intro ctx; simp [iceRun]
  | cons s ss ih =>
    intro ctx ev hev
    simp only [iceRun, List.mem_append] at hev
    rcases hev with h | h
    · exact onICE_events s ctx ev h
    · exact ih _ ev h

theorem starts_eq_nil_of (es : List Event)
    (h : ∀ ev ∈ es, ev = Event.cancel ∨ ∃ msg, ev = Event.println msg) : starts es = [] := by
  induction es with
  | nil => rfl
  | cons x xs ih =>
    have hx := h x (List.mem_cons_self _ _)
    have := ih (fun ev hev => h ev (List.mem_cons_of_mem _ hev))
    rcases hx with rfl | ⟨m, rfl⟩ <;> simpa [starts] using this

theorem dials_eq_nil_of (es : List Event)
    (h : ∀ ev ∈ es, ev = Event.cancel ∨ ∃ msg, ev = Event.println msg) : dials es = [] := by
  induction es with
  | nil => rfl
  | cons x xs ih =>
    have hx := h x (List.mem_cons_self _ _)
    have := ih (fun ev hev => h ev (List.mem_cons_of_mem _ hev))
    rcases hx with rfl | ⟨m, rfl⟩ <;> simpa [dials] using this

theorem pcClose_not_mem_of (es : List Event)
    (h : ∀ ev ∈ es, ev = Event.cancel ∨ ∃ msg, ev = Event.println msg) : Event.pcClose ∉ es := by
  intro hm
  rcases h _ hm with h1 | ⟨m, h1⟩ <;> cases h1

theorem cancel_not_mem_drain (lines : List (String × Bool)) :
    Event.cancel ∉ (drain lines).events := by
  intro hm
  obtain ⟨m, h1⟩ := drain_println lines _ hm
  cases h1

theorem dialPhase_ctx_eq (env : PipelineEnv) :
    (dialAll env (rangeOrder env.videoFirst udpConns)
      (resolveLocalAddr env Ctx.background).2).ctx.canceled = dialFailed env := by
  rw [dialPhase_ctx, resolveLocalAddr_ctx]
  simp [dialFailed, Ctx.background]

/-- The pipeline goroutine by cases on the start of the transcoder and on
whether the scope ends up cancelled. -/
theorem pipeline_eq (env : PipelineEnv) (a k : String) :
    pipeline env a k =
      match env.ffmpegStart with
      | some e =>
        { events := (resolveLocalAddr env Ctx.background).1
            ++ (dialAll env (rangeOrder env.videoFirst udpConns)
                (resolveLocalAddr env Ctx.background).2).events
            ++ [Event.stdinPipe, Event.stderrPipe,
                Event.start "ffmpeg" (ffmpegArgs (streamURL a k))]
            ++ (dialAll env (rangeOrder env.videoFirst udpConns)
                (resolveLocalAddr env Ctx.background).2).deferred
          drain := []
          handlers := []
          conns := (dialAll env (rangeOrder env.videoFirst udpConns)
            (resolveLocalAddr env Ctx.background).2).conns
          ctx := (dialAll env (rangeOrder env.videoFirst udpConns)
            (resolveLocalAddr env Ctx.background).2).ctx
          status := Status.crashed (PanicValue.error e) }
      | none =>
        if (dialFailed env || env.iceStates.any cancelsScope) = true then
          { events := (resolveLocalAddr env Ctx.background).1
              ++ (dialAll env (rangeOrder env.videoFirst udpConns)
                  (resolveLocalAddr env Ctx.background).2).events
              ++ [Event.stdinPipe, Event.stderrPipe,
                  Event.start "ffmpeg" (ffmpegArgs (streamURL a k)), Event.goDrain]
              ++ [Event.onTrackSet, Event.onICECandidateSet, Event.onICEConnectionStateChangeSet]
              ++ [Event.ctxDone, Event.pcClose]
              ++ (dialAll env (rangeOrder env.videoFirst udpConns)
                  (resolveLocalAddr env Ctx.background).2).deferred
            drain := (drain env.stderr).events
            handlers := (iceRun env.iceStates (dialAll env (rangeOrder env.videoFirst udpConns)
              (resolveLocalAddr env Ctx.background).2).ctx).1
            conns := (dialAll env (rangeOrder env.videoFirst udpConns)
              (resolveLocalAddr env Ctx.background).2).conns
            ctx := ⟨true⟩
            status := Status.finished }
        else
          { events := (resolveLocalAddr env Ctx.background).1
              ++ (dialAll env (rangeOrder env.videoFirst udpConns)
                  (resolveLocalAddr env Ctx.background).2).events
              ++ [Event.stdinPipe, Event.stderrPipe,
                  Event.start "ffmpeg" (ffmpegArgs (streamURL a k)), Event.goDrain]
              ++ [Event.onTrackSet, Event.onICECandidateSet, Event.onICEConnectionStateChangeSet]
            drain := (drain env.stderr).events
            handlers := (iceRun env.iceStates (dialAll env (rangeOrder env.videoFirst udpConns)
              (resolveLocalAddr env Ctx.background).2).ctx).1
            conns := (dialAll env (rangeOrder env.videoFirst udpConns)
              (resolveLocalAddr env Ctx.background).2).conns
            ctx := ⟨false⟩
            status := Status.blocked } := by
  have hc := dialPhase_ctx_eq env
  have hi := iceRun_ctx env.iceStates (dialAll env (rangeOrder env.videoFirst udpConns)
    (resolveLocalAddr env Ctx.background).2).ctx
  rw [hc] at hi
  unfold pipeline startFFmpeg
  cases env.ffmpegStart with
  | some e => rfl
  | none =>
    simp only []
    generalize dialAll env (rangeOrder env.videoFirst udpConns)
      (resolveLocalAddr env Ctx.background).2 = D at *
    generalize resolveLocalAddr env Ctx.background = L at *
    generalize dialFailed env = df at *
    generalize env.iceStates.any cancelsScope = ai at *
    simp only [hi]
    cases hb : (df || ai) <;> simp

theorem pipeline_starts (env : PipelineEnv) (a k : String) :
    starts (pipeline env a k).allEvents = [("ffmpeg", ffmpegArgs (streamURL a k))] := by
  have hd := dialPhase_starts env env.videoFirst (resolveLocalAddr env Ctx.background).2
  have hl := resolveLocalAddr_starts env Ctx.background
  have hdr := starts_eq_nil_of (drain env.stderr).events
    (fun ev h => Or.inr (drain_println env.stderr ev h))
  have hi := fun ctx => starts_eq_nil_of (iceRun env.iceStates ctx).1 (iceRun_events _ ctx)
  rw [pipeline_eq]
  unfold PipelineResult.allEvents
  cases env.ffmpegStart with
  | some e => simp [starts_append, hd, hl, starts]
  | none =>
    simp only []
    split <;> simp [starts_append, hd, hl, hdr, hi, starts]

theorem pipeline_dials (env : PipelineEnv) (a k : String) :
    dials (pipeline env a k).allEvents = (if env.videoFirst then [4002, 4000] else [4000, 4002]) := by
  have hd := dialPhase_dials env env.videoFirst (resolveLocalAddr env Ctx.background).2
  have hl := resolveLocalAddr_dials env Ctx.background
  have hdr := dials_eq_nil_of (drain env.stderr).events
    (fun ev h => Or.inr (drain_println env.stderr ev h))
  have hi := fun ctx => dials_eq_nil_of (iceRun env.iceStates ctx).1 (iceRun_events _ ctx)
  rw [pipeline_eq]
  unfold PipelineResult.allEvents
  cases env.ffmpegStart with
  | some e => simp [dials_append, hd, hl, dials]
  | none =>
    simp only []
    split <;> simp [dials_append, hd, hl, hdr, hi, dials]

theorem pipeline_conns (env : PipelineEnv) (a k : String) :
    (pipeline env a k).conns
      = (dialAll env (rangeOrder env.videoFirst udpConns)
          (resolveLocalAddr env Ctx.background).2).conns := by
  rw [pipeline_eq]
  cases env.ffmpegStart with
  | some e => rfl
  | none =>
    simp only []
    split <;> rfl

theorem pipeline_ctx (env : PipelineEnv) (a k : String) :
    (pipeline env a k).ctx.canceled
      = (dialFailed env || (env.ffmpegStart.isNone && env.iceStates.any cancelsScope)) := by
  have hc := dialPhase_ctx_eq env
  rw [pipeline_eq]
  cases env.ffmpegStart with
  | some e => simp [hc]
  | none =>
    simp only [Option.isNone_none, Bool.true_and]
    cases hb : (dialFailed env || env.iceStates.any cancelsScope) <;> simp

theorem pipeline_status (env : PipelineEnv) (a k : String) :
    (pipeline env a k).status =
      match env.ffmpegStart with
      | some e => Status.crashed (PanicValue.error e)
      | none =>
        if (dialFailed env || env.iceStates.any cancelsScope) = true then Status.finished
        else Status.blocked := by
  rw [pipeline_eq]
  cases env.ffmpegStart with
  | some e => rfl
  | none =>
    simp only []
    split <;> rfl

theorem pipeline_pcClose (env : PipelineEnv) (a k : String) :
    Event.pcClose ∈ (pipeline env a k).allEvents ↔ (pipeline env a k).status = Status.finished := by
  have hd := dialPhase_pcClose env env.videoFirst (resolveLocalAddr env Ctx.background).2
  have hl := resolveLocalAddr_pcClose env Ctx.background
  have hdr := pcClose_not_mem_of (drain env.stderr).events
    (fun ev h => Or.inr (drain_println env.stderr ev h))
  have hi := fun ctx => pcClose_not_mem_of (iceRun env.iceStates ctx).1 (iceRun_events _ ctx)
  rw [pipeline_eq]
  unfold PipelineResult.allEvents
  cases env.ffmpegStart with
  | some e => simp [hd, hl]
  | none =>
    simp only []
    split <;> simp [hd, hl, hdr, hi]

theorem pipeline_cancel (env : PipelineEnv) (a k : String) :
    Event.cancel ∈ (pipeline env a k).allEvents ↔ (pipeline env a k).ctx.canceled = true := by
  have hd := dialPhase_cancel env env.videoFirst (resolveLocalAddr env Ctx.background).2
  have hc := dialPhase_ctx_eq env
  have hl := resolveLocalAddr_cancel env Ctx.background
  have hdr := cancel_not_mem_drain env.stderr
  have hi := iceRun_cancel_mem env.iceStates (dialAll env (rangeOrder env.videoFirst udpConns)
    (resolveLocalAddr env Ctx.background).2).ctx
  have hdf : dialFailed env = (env.resolveLocal.isSome ||
        ((env.resolveRemote 4000).isSome || (env.dialUDP 4000).isSome ||
          (env.resolveRemote 4002).isSome || (env.dialUDP 4002).isSome)) := by
    simp only [dialFailed, Bool.or_assoc]
  rw [pipeline_eq]
  unfold PipelineResult.allEvents
  rw [hdf] at hc ⊢
  generalize dialAll env (rangeOrder env.videoFirst udpConns)
    (resolveLocalAddr env Ctx.background).2 = D at *
  generalize resolveLocalAddr env Ctx.background = L at *
  generalize env.iceStates.any cancelsScope = ai at *
  generalize ((env.resolveRemote 4000).isSome || (env.dialUDP 4000).isSome ||
          (env.resolveRemote 4002).isSome || (env.dialUDP 4002).isSome) = rf at *
  generalize env.resolveLocal.isSome = rl at *
  obtain ⟨hd1, hd2⟩ := hd
  cases env.ffmpegStart with
  | some e =>
    cases rl <;> cases rf <;> simp_all
  | none =>
    cases rl <;> cases rf <;> cases ai <;> simp_all

/-! ## Lemmas on the forwarder table and the OnTrack handler -/

theorem rangeOrder_lookup (vf : Bool) (key : String) :
    ((rangeOrder vf udpConns).lookup key).map udpConn.port
      = if key = "audio" then some 4000 else if key = "video" then some 4002 else none := by
  cases vf
  · simp only [rangeOrder, udpConns, List.lookup_cons, List.lookup_nil, Bool.false_eq_true,
      if_false]
    by_cases h1 : key = "audio"
    · subst h1; simp
    · by_cases h2 : key = "video"
      · subst h2; simp
      · have e1 : (key == "audio") = false := by simpa using h1
        have e2 : (key == "video") = false := by simpa using h2
        simp [h1, h2, e1, e2]
  · simp only [rangeOrder, udpConns, List.reverse_cons, List.reverse_nil, List.nil_append,
      List.cons_append, List.lookup_cons, List.lookup_nil, if_true]
    by_cases h1 : key = "audio"
    · subst h1; simp
    · by_cases h2 : key = "video"
      · subst h2; simp
      · have e1 : (key == "audio") = false := by simpa using h1
        have e2 : (key == "video") = false := by simpa using h2
        simp [h1, h2, e1, e2]

theorem pipeline_lookup (env : PipelineEnv) (a k key : String) :
    ((pipeline env a k).conns.lookup key).map udpConn.port
      = if key = "audio" then some 4000 else if key = "video" then some 4002 else none := by
  rw [pipeline_conns, dialAll_lookup, rangeOrder_lookup]

theorem pump_write_ports (port : Nat) (its : List PumpIter) :
    ∀ b : List Byte, (connWrites (pump port b its).events).map Prod.fst
      = List.replicate (pump port b its).iterations port := by
  induction its with
  | nil => intro b; simp [pump, connWrites]
  | cons it rest ih =>
    intro b
    rw [pump_cons]
    split
    · simp [pumpStep_connWrites]
    · simp [connWrites_append, pumpStep_connWrites, ih, List.replicate_succ]

theorem onTrack_slot (conns : List (String × udpConn)) (track : Track)
    (ticks : List Tick) (its : List PumpIter) :
    (onTrack conns track ticks its).slot = conns.lookup track.kind := by
  unfold onTrack
  cases conns.lookup track.kind <;> rfl

theorem onTrack_unmapped (conns : List (String × udpConn)) (track : Track)
    (ticks : List Tick) (its : List PumpIter) (h : conns.lookup track.kind = none) :
    onTrack conns track ticks its =
      { slot := none
        handler := { events := [], iterations := 0, exited := true }
        pacerStarted := false
        pacer := { events := [], iterations := 0, exited := false } } := by
  unfold onTrack
  rw [h]

theorem onTrack_mapped (conns : List (String × udpConn)) (track : Track)
    (ticks : List Tick) (its : List PumpIter) (c : udpConn) (h : conns.lookup track.kind = some c) :
    onTrack conns track ticks its =
      { slot := some c
        handler := { pump c.port newBuffer its with
          events := Event.goPacer :: (pump c.port newBuffer its).events }
        pacerStarted := true
        pacer := pacer track.ssrc ticks } := by
  unfold onTrack
  rw [h]

/-! ## Lemmas on `CreateWebRTCConnection` -/

theorem Call.ok_unit (c : Call Unit) (h : c.ok = true) : c = Call.ret () none := by
  cases c with
  | ret v e => cases e <;> simp_all [Call.ok]
  | fault v => simp [Call.ok] at h

theorem reachesOffer_iff (env : SetupEnv) :
    env.reachesOffer = true ↔
      env.registerVideo = Call.ret () none ∧ env.registerAudio = Call.ret () none ∧
      env.newPeerConnection = Call.ret () none ∧ env.addTransceiverAudio = Call.ret () none ∧
      env.addTransceiverVideo = Call.ret () none := by
  constructor
  · intro h
    simp only [SetupEnv.reachesOffer, Bool.and_eq_true] at h
    obtain ⟨⟨⟨⟨h1, h2⟩, h3⟩, h4⟩, h5⟩ := h
    exact ⟨Call.ok_unit _ h1, Call.ok_unit _ h2, Call.ok_unit _ h3, Call.ok_unit _ h4,
      Call.ok_unit _ h5⟩
  · rintro ⟨h1, h2, h3, h4, h5⟩
    simp [SetupEnv.reachesOffer, h1, h2, h3, h4, h5, Call.ok]

theorem deferredRecover_exit (f : Frame) (x : Exit) : (deferredRecover f x).2 = Exit.normal := by
  unfold deferredRecover recover
  cases x with
  | normal => rfl
  | panicking v => cases v <;> rfl

theorem deferredRecover_events (f : Frame) (x : Exit) :
    (deferredRecover f x).1.events = f.events := by
  unfold deferredRecover recover
  cases x with
  | normal => rfl
  | panicking v => cases v <;> rfl

theorem CreateWebRTCConnection_exit (env : SetupEnv) (a k o : String) :
    (CreateWebRTCConnection env a k o).2 = Exit.normal := by
  unfold CreateWebRTCConnection
  simp only []
  split <;> exact deferredRecover_exit _ _

theorem setupBody_events (env : SetupEnv) (o : String) :
    (setupBody env o).1.events = if env.reachesOffer then [Event.goPipeline] else [] := by
  unfold setupBody SetupEnv.reachesOffer
  rcases env.registerVideo with ⟨_, _ | _⟩ | _ <;> try rfl
  rcases env.registerAudio with ⟨_, _ | _⟩ | _ <;> try rfl
  rcases env.newPeerConnection with ⟨_, _ | _⟩ | _ <;> try rfl
  rcases env.addTransceiverAudio with ⟨_, _ | _⟩ | _ <;> try rfl
  rcases env.addTransceiverVideo with ⟨_, _ | _⟩ | _ <;> try rfl
  simp only [Call.ok, Bool.and_self, if_true]
  rcases env.unmarshal o with ⟨offer, e1⟩ | _ <;> try rfl
  simp only []
  rcases checkErr env e1 180 181 with ⟨c1, _ | x1⟩ <;> try rfl
  simp only []
  rcases env.setRemoteDescription offer with ⟨_, e2⟩ | _ <;> try rfl
  simp only []
  rcases checkErr env e2 185 186 with ⟨c2, _ | x2⟩ <;> try rfl
  simp only []
  rcases env.createAnswer with ⟨ans, e3⟩ | _ <;> try rfl
  simp only []
  rcases checkErr env e3 191 192 with ⟨c3, _ | x3⟩ <;> try rfl
  simp only []
  rcases env.setLocalDescription ans with ⟨_, e4⟩ | _ <;> try rfl
  simp only []
  rcases checkErr env e4 198 199 with ⟨c4, _ | x4⟩ <;> rfl

theorem CreateWebRTCConnection_events (env : SetupEnv) (a k o : String) :
    (CreateWebRTCConnection env a k o).1.events
      = if env.reachesOffer then [Event.goPipeline] else [] := by
  unfold CreateWebRTCConnection
  simp only []
  split
  · simp only [deferredRecover_events, setupBody_events]
  · simp only [deferredRecover_events, setupBody_events]

theorem checkErr_quiet (env : SetupEnv) (hq : ∀ l, env.race l = none) (s : Option GoError)
    (a b : Nat) :
    checkErr env s a b =
      match s with
      | none => (none, none)
      | some e => (some e, some (Exit.panicking (PanicValue.error e))) := by
  unfold checkErr
  cases s <;> simp [hq, loadErr, panicValue]

theorem setupBody_of_negotiationFails (env : SetupEnv) (o : String) (e : GoError)
    (hr : env.reachesOffer = true) (hq : ∀ l, env.race l = none)
    (hf : NegotiationFails env o e) :
    (setupBody env o).1.err = some e ∧ (setupBody env o).2 = Exit.panicking (PanicValue.error e) := by
  obtain ⟨h1, h2, h3, h4, h5⟩ := (reachesOffer_iff env).1 hr
  unfold setupBody
  simp only [h1, h2, h3, h4, h5]
  rcases hf with ⟨v, hv⟩ | ⟨offer, ho, hs | ⟨hs, ⟨ans, ha⟩ | ⟨ans, ha, hl⟩⟩⟩
  · simp [hv, checkErr_quiet env hq]
  · simp [ho, hs, checkErr_quiet env hq]
  · simp [ho, hs, ha, checkErr_quiet env hq]
  · simp [ho, hs, ha, hl, checkErr_quiet env hq]

theorem CreateWebRTCConnection_of_negotiationFails (env : SetupEnv) (a k o : String) (e : GoError)
    (hr : env.reachesOffer = true) (hq : ∀ l, env.race l = none)
    (hf : NegotiationFails env o e) :
    (CreateWebRTCConnection env a k o).1.err = some e := by
  obtain ⟨h1, h2⟩ := setupBody_of_negotiationFails env o e hr hq hf
  unfold CreateWebRTCConnection
  simp only []
  have hd : deferredRecover (setupBody env o).1 (setupBody env o).2
      = ({ (setupBody env o).1 with err := some e }, Exit.normal) := by
    rw [h2]
    rfl
  rw [hd]
  split <;> simp [hq, loadErr]

theorem session_background (env : SetupEnv) (penv : PipelineEnv) (a k o : String) :
    (session env penv a k o).background
      = if env.reachesOffer then some (pipeline penv a k) else none := by
  unfold session
  simp only [CreateWebRTCConnection_events]
  cases env.reachesOffer <;> simp

theorem session_frame (env : SetupEnv) (penv : PipelineEnv) (a k o : String) :
    (session env penv a k o).frame = (CreateWebRTCConnection env a k o).1 ∧
      (session env penv a k o).exit = (CreateWebRTCConnection env a k o).2 := by
  unfold session
  exact ⟨rfl, rfl⟩

theorem session_backgroundEvents (env : SetupEnv) (penv : PipelineEnv) (a k o : String) :
    (session env penv a k o).backgroundEvents
      = if env.reachesOffer then (pipeline penv a k).allEvents else [] := by
  unfold Session.backgroundEvents
  rw [session_background]
  cases env.reachesOffer <;> rfl

/-! ## Claims -/

/-- C1: for every finite schedule of pump iterations in which each
`track.Read` returns without error a packet of at most 1500 bytes, the pump
loop runs up to and including the first iteration that breaks (all of them
when none does), reads one packet in each, and hands to `conn.Write` exactly
the packets it read, one write per read, in the order read, each payload
`b[:n]` being the packet itself, on the socket of the slot; when no iteration
breaks, the datagrams written are the whole sequence of packets. -/
theorem C1_pump_writes_each_packet_verbatim (port : Nat) (its : List PumpIter)
    (hread : ∀ it ∈ its, it.read.err = none ∧ it.read.data.length ≤ 1500) :
    (pump port newBuffer its).iterations = min (its.findIdx pumpBreaks + 1) its.length
      ∧ trackReads (pump port newBuffer its).events
          = min (its.findIdx pumpBreaks + 1) its.length
      ∧ connWrites (pump port newBuffer its).events
          = (its.take (min (its.findIdx pumpBreaks + 1) its.length)).map
              (fun it => (port, it.read.data))
      ∧ (its.any pumpBreaks = false →
          connWrites (pump port newBuffer its).events
            = its.map (fun it => (port, it.read.data))) := by
  have hi := pump_iterations port its newBuffer
  have hw := pump_forwards port its newBuffer (by simp only [newBuffer, List.length_replicate])
    (fun it h => (hread it h).2)
  have hr := pump_trackReads port its newBuffer
  rw [hi] at hw hr
  refine ⟨hi, hr, hw, ?_⟩
  intro hany
  rw [hw]
  have hlen : its.length ≤ its.findIdx pumpBreaks + 1 := by
    have hge : its.length ≤ its.findIdx pumpBreaks := by
      by_contra hlt
      have hlt2 : its.findIdx pumpBreaks < its.length := by omega
      have hp := List.findIdx_getElem (w := hlt2)
      have hmem : its[its.findIdx pumpBreaks] ∈ its := List.getElem_mem _
      have : its.any pumpBreaks = true := List.any_eq_true.2 ⟨_, hmem, hp⟩
      rw [hany] at this
      exact Bool.noConfusion this
    omega
  rw [Nat.min_eq_right hlen, List.take_length]

/-- C1 witness: packets of 200, 800 and 1400 bytes read on the video track
give three datagrams on port 4002 equal to them, in that order. -/
theorem C1_three_packets_witness :
    (∀ it ∈ threePackets, it.read.err = none ∧ it.read.data.length ≤ 1500) ∧
      connWrites (pump 4002 newBuffer threePackets).events
        = [(4002, p1), (4002, p2), (4002, p3)] := by
  have hh : ∀ it ∈ threePackets, it.read.err = none ∧ it.read.data.length ≤ 1500 := by
    intro it hit
    simp only [threePackets, List.mem_cons, List.mem_singleton, List.not_mem_nil, or_false] at hit
    rcases hit with rfl | rfl | rfl <;>
      simp only [p1, p2, p3, List.length_replicate] <;> norm_num
  have h := (C1_pump_writes_each_packet_verbatim 4002 threePackets hh).2.2.2
  refine ⟨hh, ?_⟩
  rw [h (by simp [threePackets, pumpBreaks, loadErr])]
  simp [threePackets]

/-- C9 (failing input): in an iteration where the track read fails (the
track has ended), the UDP write succeeds and the scope is cancelled, the loop
does not break: the read error is only printed and the check of the scope sits
inside the write-error branch. Three such iterations in a row leave the loop
running, each writing an empty datagram. -/
theorem C9_read_error_under_cancelled_scope_does_not_exit :
    endedTrackIter.read.err = some "EOF"
      ∧ endedTrackIter.canceled = true
      ∧ (pumpStep 4002 newBuffer endedTrackIter).2.2 = false
      ∧ (pump 4002 newBuffer [endedTrackIter, endedTrackIter, endedTrackIter]).exited = false
      ∧ (pump 4002 newBuffer [endedTrackIter, endedTrackIter, endedTrackIter]).iterations = 3
      ∧ connWrites (pump 4002 newBuffer [endedTrackIter, endedTrackIter, endedTrackIter]).events
          = [(4002, []), (4002, []), (4002, [])] := by
  have hi : (pump 4002 newBuffer [endedTrackIter, endedTrackIter, endedTrackIter]).iterations
      = 3 := by
    rw [pump_iterations]
    simp [endedTrackIter, pumpBreaks, loadErr, List.findIdx_cons]
  refine ⟨rfl, rfl, ?_, ?_, hi, ?_⟩
  · rw [pumpStep_exit]
    rfl
  · rw [pump_exited]
    simp [endedTrackIter, pumpBreaks, loadErr]
  · rw [pump_forwards 4002 _ newBuffer (by simp only [newBuffer, List.length_replicate])
      (by intro it hit; simp at hit; subst hit; simp [endedTrackIter]), hi]
    simp [endedTrackIter]

/-- C10: for every sequence of ticks and every pattern of `WriteRTCP`
failures, the pacer writes on each tick it runs one batch holding a single
PictureLossIndication whose MediaSSRC is the SSRC of the track; it runs up to
and including the first tick at which the scope is observed cancelled and ends
there, whatever the write errors; so at most one of the ticks it runs observes
a cancelled scope. -/
theorem C10_pacer_one_pli_per_tick_until_cancelled (ssrc : Nat) (ticks : List Tick)
    (hssrc : ssrc < 2 ^ 32) :
    rtcpWrites (pacer ssrc ticks).events
        = List.replicate (pacer ssrc ticks).iterations [RTCPPacket.PictureLossIndication ssrc]
      ∧ (pacer ssrc ticks).iterations = min (ticks.findIdx Tick.canceled + 1) ticks.length
      ∧ (pacer ssrc ticks).exited = ticks.any Tick.canceled
      ∧ ((ticks.take (pacer ssrc ticks).iterations).filter Tick.canceled).length ≤ 1 := by
  refine ⟨?_, pacer_iterations ssrc ticks, pacer_exited ssrc ticks, ?_⟩
  · have h := pacer_rtcpWrites ssrc ticks
    rwa [uint32, Nat.mod_eq_of_lt hssrc] at h
  · rw [pacer_canceled_once]
    split <;> simp

/-- C10 witness: with SSRC 305419896, a failed RTCP write on the first tick
and the scope observed cancelled on the third, the pacer writes three PLI
batches and stops. -/
theorem C10_sample_ticks_witness :
    (305419896 : Nat) < 2 ^ 32 ∧
      rtcpWrites (pacer 305419896 sampleTicks).events
        = [[RTCPPacket.PictureLossIndication 305419896],
           [RTCPPacket.PictureLossIndication 305419896],
           [RTCPPacket.PictureLossIndication 305419896]]
      ∧ (pacer 305419896 sampleTicks).exited = true := by
  have h := C10_pacer_one_pli_per_tick_until_cancelled 305419896 sampleTicks (by norm_num)
  obtain ⟨h1, h2, h3, _⟩ := h
  have hit : (pacer 305419896 sampleTicks).iterations = 3 := by
    rw [h2]
    simp [sampleTicks, List.findIdx_cons]
  refine ⟨by norm_num, ?_, ?_⟩
  · rw [h1, hit]
    rfl
  · rw [h3]
    simp [sampleTicks]

/-- C6: the ICE connection-state handler calls `cancel()` if and only if the
state is Failed or Disconnected, and otherwise leaves the scope as it was;
over any sequence of state changes the handler cancels exactly when some state
of the sequence is Failed or Disconnected, and a cancelled scope stays
cancelled. -/
theorem C6_ice_handler_cancels_iff_failed_or_disconnected (s : ICEConnectionState)
    (ss : List ICEConnectionState) (ctx : Ctx) :
    (Event.cancel ∈ (onICEConnectionStateChange s ctx).1 ↔
        (s = ICEConnectionState.Failed ∨ s = ICEConnectionState.Disconnected))
      ∧ (onICEConnectionStateChange s ctx).2.canceled
          = (ctx.canceled ||
              decide (s = ICEConnectionState.Failed ∨ s = ICEConnectionState.Disconnected))
      ∧ (Event.cancel ∈ (iceRun ss ctx).1 ↔
          ∃ t ∈ ss, t = ICEConnectionState.Failed ∨ t = ICEConnectionState.Disconnected)
      ∧ (iceRun ss ctx).2.canceled
          = (ctx.canceled || ss.any (fun t =>
              decide (t = ICEConnectionState.Failed ∨ t = ICEConnectionState.Disconnected))) := by
  refine ⟨?_, ?_, ?_, ?_⟩
  · rw [onICE_cancel_mem]
    simp [cancelsScope]
  · rw [onICE_ctx]
    rfl
  · rw [iceRun_cancel_mem]
    simp [cancelsScope]
  · rw [iceRun_ctx]
    rfl

/-- C5: the forwarder table has exactly the two slots audio (port 4000) and
video (port 4002); for every arriving track the OnTrack handler selects the
slot stored under the track's kind string and writes only to that slot's
socket; for a kind that is neither audio nor video it returns at once: no
pacer is started, no packet is read and nothing is written. -/
theorem C5_forwarder_table_and_unknown_kinds (penv : PipelineEnv) (a k : String)
    (track : Track) (ticks : List Tick) (its : List PumpIter) :
    udpConns.map (fun p => (p.1, p.2.port)) = [("audio", 4000), ("video", 4002)]
      ∧ (onTrack (pipeline penv a k).conns track ticks its).slot
          = (pipeline penv a k).conns.lookup track.kind
      ∧ (onTrack (pipeline penv a k).conns track ticks its).slot.map udpConn.port
          = (if track.kind = "audio" then some 4000
             else if track.kind = "video" then some 4002 else none)
      ∧ (connWrites (onTrack (pipeline penv a k).conns track ticks its).handler.events).map
            (fun w => some w.1)
          = List.replicate (onTrack (pipeline penv a k).conns track ticks its).handler.iterations
              ((onTrack (pipeline penv a k).conns track ticks its).slot.map udpConn.port)
      ∧ (if track.kind = "audio" ∨ track.kind = "video" then
            (onTrack (pipeline penv a k).conns track ticks its).pacerStarted = true
          else
            onTrack (pipeline penv a k).conns track ticks its =
              { slot := none
                handler := { events := [], iterations := 0, exited := true }
                pacerStarted := false
                pacer := { events := [], iterations := 0, exited := false } }) := by
  have hl := pipeline_lookup penv a k track.kind
  refine ⟨rfl, onTrack_slot _ _ _ _, ?_, ?_, ?_⟩
  · rw [onTrack_slot, hl]
  · cases hc : (pipeline penv a k).conns.lookup track.kind with
    | none => rw [onTrack_unmapped _ _ _ _ hc]; rfl
    | some c =>
      rw [onTrack_mapped _ _ _ _ c hc]
      have hp := pump_write_ports c.port its newBuffer
      have hm : (connWrites (pump c.port newBuffer its).events).map (fun w => some w.1)
          = List.replicate (pump c.port newBuffer its).iterations (some c.port) := by
        have := congrArg (List.map some) hp
        simpa [List.map_map, Function.comp_def] using this
      simpa [connWrites] using hm
  · cases hc : (pipeline penv a k).conns.lookup track.kind with
    | none =>
      rw [hc] at hl
      have hk : ¬ (track.kind = "audio" ∨ track.kind = "video") := by
        rintro (h | h) <;> simp [h] at hl
      rw [if_neg hk]
      exact onTrack_unmapped _ _ _ _ hc
    | some c =>
      rw [hc] at hl
      have hk : track.kind = "audio" ∨ track.kind = "video" := by
        by_cases h1 : track.kind = "audio"
        · exact Or.inl h1
        · by_cases h2 : track.kind = "video"
          · exact Or.inr h2
          · simp [h1, h2] at hl
      rw [if_pos hk, onTrack_mapped _ _ _ _ c hc]

/-- C4: for every ingestionAddress and streamKey, in every environment the
pipeline goroutine calls `Start` on exactly one command, the program ffmpeg
with the thirteen arguments of the source in their order, the last one being
ingestionAddress, a slash and streamKey; the calling goroutine starts no
process itself and launches the pipeline at most once, so a session starts the
transcoder once when its pipeline is launched and never otherwise. -/
theorem C4_transcoder_started_once_with_fixed_arguments (env : SetupEnv) (penv : PipelineEnv)
    (ingestionAddress streamKey offerStr : String) :
    starts (pipeline penv ingestionAddress streamKey).allEvents
        = [("ffmpeg", ["-protocol_whitelist", "file,udp,rtp", "-i", "rtp-forwarder.sdp",
            "-c:v", "copy", "-c:a", "aac", "-f", "flv", "-strict", "-2",
            ingestionAddress ++ "/" ++ streamKey])]
      ∧ starts (session env penv ingestionAddress streamKey offerStr).frame.events = []
      ∧ (session env penv ingestionAddress streamKey offerStr).frame.events
          = (if env.reachesOffer then [Event.goPipeline] else [])
      ∧ starts (session env penv ingestionAddress streamKey offerStr).backgroundEvents
          = (if env.reachesOffer then
              [("ffmpeg", ["-protocol_whitelist", "file,udp,rtp", "-i", "rtp-forwarder.sdp",
                "-c:v", "copy", "-c:a", "aac", "-f", "flv", "-strict", "-2",
                ingestionAddress ++ "/" ++ streamKey])]
             else []) := by
  have hs := pipeline_starts penv ingestionAddress streamKey
  have hf := (session_frame env penv ingestionAddress streamKey offerStr).1
  have he := CreateWebRTCConnection_events env ingestionAddress streamKey offerStr
  refine ⟨hs, ?_, ?_, ?_⟩
  · rw [hf, he]
    cases env.reachesOffer <;> simp [starts]
  · rw [hf, he]
  · rw [session_backgroundEvents]
    cases env.reachesOffer
    · simp [starts]
    · simpa using hs

/-- C2 (failing input): when `NewPeerConnection` panics with a value that is
not an error (here a string), the deferred function stops the panic but the
type assertion fails, so the call returns normally with a nil error and the
zero answer, for every ingestionAddress, streamKey and offer. -/
theorem C2_string_panic_returns_nil_error (ingestionAddress streamKey offerStr : String) :
    CreateWebRTCConnection stringPanicEnv ingestionAddress streamKey offerStr
      = ({ answer := SessionDescription.zero, err := none, events := [] }, Exit.normal) := by
  rfl

/-- C3 counterexample: on the offer `not json`, which `json.Unmarshal`
rejects, the pipeline goroutine was launched before the offer was parsed: it
dials both UDP sockets and starts the transcoder. Moreover, when the nil that
a successful `net.ResolveUDPAddr` of that goroutine stores in the shared `err`
lands after the deferred function and before the result is read, the call
returns a nil error. -/
theorem C3_counterexample_pipeline_runs_on_malformed_offer :
    okEnv.unmarshal "not json"
        = Call.ret SessionDescription.zero (some "invalid character in literal null")
      ∧ dials (session okEnv quietEnv "rtmp://live.example/app" "key" "not json").backgroundEvents
          = [4000, 4002]
      ∧ starts (session okEnv quietEnv "rtmp://live.example/app" "key" "not json").backgroundEvents
          = [("ffmpeg", ffmpegArgs "rtmp://live.example/app/key")]
      ∧ lateStoreEnv.unmarshal "not json"
          = Call.ret SessionDescription.zero (some "invalid character in literal null")
      ∧ (session lateStoreEnv quietEnv "rtmp://live.example/app" "key" "not json").frame.err
          = none
      ∧ (session lateStoreEnv quietEnv "rtmp://live.example/app" "key" "not json").exit
          = Exit.normal := by
  refine ⟨rfl, ?_, ?_, rfl, rfl, rfl⟩
  · rw [session_backgroundEvents, if_pos (by rfl), pipeline_dials]
    rfl
  · rw [session_backgroundEvents, if_pos (by rfl), pipeline_starts]
    rfl

/-- C3 (amended): for every offer string that `json.Unmarshal` rejects, the
earlier setup calls having succeeded, the pipeline goroutine has been launched
before the offer is parsed, so in every environment it dials the two UDP
sockets (ports 4000 and 4002, in map order) and starts the transcoder once,
whatever the offer; and when no store of another goroutine to the shared `err`
lands before a read of the calling goroutine, the call returns normally with
the JSON error as its non-nil error and the zero answer. -/
theorem C3_malformed_offer_fails_after_pipeline_launch (env : SetupEnv) (penv : PipelineEnv)
    (ingestionAddress streamKey offerStr : String) (v : SessionDescription) (e : GoError)
    (hreach : env.reachesOffer = true)
    (hbad : env.unmarshal offerStr = Call.ret v (some e))
    (hquiet : ∀ l, env.race l = none) :
    (session env penv ingestionAddress streamKey offerStr).frame.err = some e
      ∧ (session env penv ingestionAddress streamKey offerStr).frame.answer
          = SessionDescription.zero
      ∧ (session env penv ingestionAddress streamKey offerStr).exit = Exit.normal
      ∧ (session env penv ingestionAddress streamKey offerStr).background
          = some (pipeline penv ingestionAddress streamKey)
      ∧ dials (session env penv ingestionAddress streamKey offerStr).backgroundEvents
          = (if penv.videoFirst then [4002, 4000] else [4000, 4002])
      ∧ starts (session env penv ingestionAddress streamKey offerStr).backgroundEvents
          = [("ffmpeg", ffmpegArgs (streamURL ingestionAddress streamKey))] := by
  obtain ⟨hf, hx⟩ := session_frame env penv ingestionAddress streamKey offerStr
  obtain ⟨h1, h2, h3, h4, h5⟩ := (reachesOffer_iff env).1 hreach
  have hs : setupBody env offerStr
      = ({ answer := SessionDescription.zero, err := some e, events := [Event.goPipeline] },
          Exit.panicking (PanicValue.error e)) := by
    unfold setupBody
    simp [h1, h2, h3, h4, h5, hbad, checkErr_quiet env hquiet]
  have hc : CreateWebRTCConnection env ingestionAddress streamKey offerStr
      = ({ answer := SessionDescription.zero, err := some e, events := [Event.goPipeline] },
          Exit.normal) := by
    unfold CreateWebRTCConnection
    rw [hs]
    simp [deferredRecover, recover, hquiet, loadErr]
  refine ⟨?_, ?_, ?_, ?_, ?_, ?_⟩
  · rw [hf, hc]
  · rw [hf, hc]
  · rw [hx, hc]
  · rw [session_background, hreach]
    rfl
  · rw [session_backgroundEvents, hreach]
    exact pipeline_dials penv ingestionAddress streamKey
  · rw [session_backgroundEvents, hreach]
    exact pipeline_starts penv ingestionAddress streamKey

/-- C3 witness: the amended statement at the offer `not json`, with the video
slot visited first by the range loop and no interference on `err`. -/
theorem C3_not_json_witness :
    okEnv.reachesOffer = true
      ∧ okEnv.unmarshal "not json"
          = Call.ret SessionDescription.zero (some "invalid character in literal null")
      ∧ (∀ l, okEnv.race l = none)
      ∧ (session okEnv { quietEnv with videoFirst := true } "rtmp://live.example/app" "key"
            "not json").frame.err = some "invalid character in literal null"
      ∧ dials (session okEnv { quietEnv with videoFirst := true } "rtmp://live.example/app" "key"
            "not json").backgroundEvents = [4002, 4000] := by
  have h := C3_malformed_offer_fails_after_pipeline_launch okEnv
    { quietEnv with videoFirst := true } "rtmp://live.example/app" "key" "not json"
    SessionDescription.zero "invalid character in literal null" rfl rfl (fun _ => rfl)
  exact ⟨rfl, rfl, fun _ => rfl, h.1, h.2.2.2.2.1⟩

/-- C7 counterexample: when `ffmpeg.Start()` fails the scope is not cancelled
(the pipeline goroutine unwinds with the panic of `startFFmpeg`), and when the
transcoder starts, prints a line and exits, the drain loop ends at end of file
and the scope is not cancelled either; no `cancel()` occurs in either run. -/
theorem C7_counterexample_supervision_events_do_not_cancel :
    spawnFailEnv.ffmpegStart = some "executable file not found"
      ∧ (pipeline spawnFailEnv "rtmp://live.example/app" "key").ctx.canceled = false
      ∧ Event.cancel ∉ (pipeline spawnFailEnv "rtmp://live.example/app" "key").allEvents
      ∧ (pipeline spawnFailEnv "rtmp://live.example/app" "key").status
          = Status.crashed (PanicValue.error "executable file not found")
      ∧ (pipeline exitEnv "rtmp://live.example/app" "key").drain = [Event.println "frame=1"]
      ∧ (pipeline exitEnv "rtmp://live.example/app" "key").ctx.canceled = false
      ∧ Event.cancel ∉ (pipeline exitEnv "rtmp://live.example/app" "key").allEvents := by
  have c1 : (pipeline spawnFailEnv "rtmp://live.example/app" "key").ctx.canceled = false := by
    rw [pipeline_ctx]; rfl
  have c2 : (pipeline exitEnv "rtmp://live.example/app" "key").ctx.canceled = false := by
    rw [pipeline_ctx]; rfl
  refine ⟨rfl, c1, ?_, ?_, ?_, c2, ?_⟩
  · rw [pipeline_cancel, c1]; simp
  · rw [pipeline_status]; rfl
  · rfl
  · rw [pipeline_cancel, c2]; simp

/-- C7 (amended): `startFFmpeg` is given the context only and never calls
`cancel()`; once the transcoder has started, its output and its exit (the end
of its stderr stream, which ends the drain loop) leave the scope as it was:
the scope of the pipeline is cancelled exactly when a UDP resolve or dial step
failed or an ICE state Failed or Disconnected was delivered. -/
theorem C7_transcoder_exit_leaves_scope_unchanged (penv : PipelineEnv)
    (ingestionAddress streamKey url : String) (ctx : Ctx)
    (hstart : penv.ffmpegStart = none) :
    Event.cancel ∉ (startFFmpeg ctx url penv.ffmpegStart penv.stderr).events
      ∧ Event.cancel ∉ (startFFmpeg ctx url penv.ffmpegStart penv.stderr).drain
      ∧ (startFFmpeg ctx url penv.ffmpegStart penv.stderr).exit = Exit.normal
      ∧ (pipeline penv ingestionAddress streamKey).ctx.canceled
          = (dialFailed penv || penv.iceStates.any cancelsScope) := by
  refine ⟨?_, ?_, ?_, ?_⟩
  · rw [hstart]; simp [startFFmpeg]
  · rw [hstart]
    simpa [startFFmpeg] using cancel_not_mem_drain penv.stderr
  · rw [hstart]; rfl
  · rw [pipeline_ctx, hstart]; simp

/-- C7 witness: the transcoder starts, prints one line and exits; the scope
stays live. -/
theorem C7_exit_witness :
    exitEnv.ffmpegStart = none
      ∧ Event.cancel ∉ (startFFmpeg Ctx.background "rtmp://live.example/app/key"
          exitEnv.ffmpegStart exitEnv.stderr).drain
      ∧ (pipeline exitEnv "rtmp://live.example/app" "key").ctx.canceled = false := by
  have h := C7_transcoder_exit_leaves_scope_unchanged exitEnv "rtmp://live.example/app" "key"
    "rtmp://live.example/app/key" Ctx.background rfl
  refine ⟨rfl, h.2.1, ?_⟩
  rw [h.2.2.2]
  rfl

/-- C8 counterexample: the offer `not json` fails to parse after the peer
connection has been created, yet with a pipeline in which nothing else goes
wrong the whole session contains neither `peerConnection.Close()` nor
`cancel()`: the pipeline goroutine stays blocked on the scope. Moreover, when
the nil stored in the shared `err` by the pipeline goroutine lands after the
deferred function and before the result is read, the call returns a nil
error. -/
theorem C8_counterexample_failed_negotiation_leaves_connection_open :
    okEnv.reachesOffer = true
      ∧ NegotiationFails okEnv "not json" "invalid character in literal null"
      ∧ Event.pcClose ∉
          (session okEnv quietEnv "rtmp://live.example/app" "key" "not json").frame.events
            ++ (session okEnv quietEnv "rtmp://live.example/app" "key" "not json").backgroundEvents
      ∧ Event.cancel ∉
          (session okEnv quietEnv "rtmp://live.example/app" "key" "not json").frame.events
            ++ (session okEnv quietEnv "rtmp://live.example/app" "key" "not json").backgroundEvents
      ∧ (pipeline quietEnv "rtmp://live.example/app" "key").status = Status.blocked
      ∧ NegotiationFails lateStoreEnv "not json" "invalid character in literal null"
      ∧ (session lateStoreEnv quietEnv "rtmp://live.example/app" "key" "not json").frame.err
          = none := by
  have hs : (pipeline quietEnv "rtmp://live.example/app" "key").status = Status.blocked := by
    rw [pipeline_status]; rfl
  have hc : (pipeline quietEnv "rtmp://live.example/app" "key").ctx.canceled = false := by
    rw [pipeline_ctx]; rfl
  have hf : (session okEnv quietEnv "rtmp://live.example/app" "key" "not json").frame.events
      = [Event.goPipeline] := rfl
  refine ⟨rfl, Or.inl ⟨SessionDescription.zero, rfl⟩, ?_, ?_, hs,
    Or.inl ⟨SessionDescription.zero, rfl⟩, rfl⟩
  · rw [hf, session_backgroundEvents, if_pos (by rfl)]
    simp [pipeline_pcClose, hs]
  · rw [hf, session_backgroundEvents, if_pos (by rfl)]
    simp [pipeline_cancel, hc]

/-- C8 (amended): for every input on which a negotiation step (offer parse,
SetRemoteDescription, CreateAnswer or SetLocalDescription) returns an error
after the peer connection has been created, the calling goroutine itself
neither closes the peer connection nor cancels the scope; the connection is
closed only by the pipeline goroutine, and that happens exactly when the
transcoder started and the scope was cancelled by a UDP resolve or dial
failure or by an ICE state Failed or Disconnected, independently of the
negotiation failure; and when no store of another goroutine to the shared
`err` lands before a read of the calling goroutine, the call returns normally
with the error of the failed step as its non-nil error. -/
theorem C8_negotiation_failure_returns_error_without_close (env : SetupEnv)
    (penv : PipelineEnv) (ingestionAddress streamKey offerStr : String) (e : GoError)
    (hreach : env.reachesOffer = true) (hfail : NegotiationFails env offerStr e)
    (hquiet : ∀ l, env.race l = none) :
    (session env penv ingestionAddress streamKey offerStr).frame.err = some e
      ∧ (session env penv ingestionAddress streamKey offerStr).exit = Exit.normal
      ∧ Event.pcClose ∉ (session env penv ingestionAddress streamKey offerStr).frame.events
      ∧ Event.cancel ∉ (session env penv ingestionAddress streamKey offerStr).frame.events
      ∧ (session env penv ingestionAddress streamKey offerStr).background
          = some (pipeline penv ingestionAddress streamKey)
      ∧ (Event.pcClose ∈ (session env penv ingestionAddress streamKey offerStr).backgroundEvents
          ↔ (penv.ffmpegStart = none
              ∧ (dialFailed penv || penv.iceStates.any cancelsScope) = true)) := by
  obtain ⟨hf, hx⟩ := session_frame env penv ingestionAddress streamKey offerStr
  have he := CreateWebRTCConnection_events env ingestionAddress streamKey offerStr
  rw [hreach] at he
  refine ⟨?_, ?_, ?_, ?_, ?_, ?_⟩
  · rw [hf]
    exact CreateWebRTCConnection_of_negotiationFails env _ _ _ e hreach hquiet hfail
  · rw [hx]
    exact CreateWebRTCConnection_exit env _ _ _
  · rw [hf, he]; simp
  · rw [hf, he]; simp
  · rw [session_background, hreach]; rfl
  · rw [session_backgroundEvents, hreach]
    simp only [if_true]
    rw [pipeline_pcClose, pipeline_status]
    cases penv.ffmpegStart with
    | some e1 => simp
    | none =>
      simp only [true_and]
      split <;> simp_all

/-- C8 witness: `SetRemoteDescription` rejects a well-formed offer while ICE
later fails, with no interference on `err`; the call returns the error and the
close comes from the ICE failure. -/
theorem C8_set_remote_failure_witness :
    { okEnv with setRemoteDescription := fun _ => Call.ret () (some "invalid SDP") }.reachesOffer
        = true
      ∧ (session { okEnv with setRemoteDescription := fun _ => Call.ret () (some "invalid SDP") }
          iceFailEnv "rtmp://live.example/app" "key" "offer").frame.err = some "invalid SDP"
      ∧ Event.pcClose ∈
          (session { okEnv with setRemoteDescription := fun _ => Call.ret () (some "invalid SDP") }
            iceFailEnv "rtmp://live.example/app" "key" "offer").backgroundEvents := by
  have h := C8_negotiation_failure_returns_error_without_close
    { okEnv with setRemoteDescription := fun _ => Call.ret () (some "invalid SDP") }
    iceFailEnv "rtmp://live.example/app" "key" "offer" "invalid SDP" rfl
    (Or.inr ⟨⟨"offer", "offer"⟩, rfl, Or.inl rfl⟩) (fun _ => rfl)
  refine ⟨rfl, h.1, ?_⟩
  rw [h.2.2.2.2.2]
  exact ⟨rfl, rfl⟩

end LetsTalk
